import Mathlib

/-!
Verification of the brousla-app workflow scheduling and multi-clip generation
core, shallowly embedded from the Python sources.

Two variants of the scheduler exist in the repository and are both embedded:
`src/workflow-server/workflow_scheduler.py` (namespace `WorkflowServer`) and
the legacy `src/server/workflow_scheduler.py` (namespace `LegacyServer`).
The generation pipeline is embedded from `src/server/workflow_executor.py`
(namespace `Executor`), the prompt memory and the HTTP endpoint handlers from
`src/workflow-server/main.py`, and the prompt-count correction from
`src/api-server/app/routes_ai.py`.

Timestamps are modelled as natural numbers (minutes); `datetime.utcnow() +
timedelta(minutes=m)` becomes `now + m`.
-/

namespace Brousla

/-- Durable per-workflow state record, fields as initialised by
`_get_workflow_state` in `src/workflow-server/main.py` (lines 493-510).
The `cancelled` field is absent from the default record in the source and is
read there with `state.get('cancelled', False)`; it is modelled as a `Bool`
field defaulting to `false`. -/
structure WorkflowState where
  isActive : Bool
  isRunning : Bool
  cancelled : Bool
  lastExecutionTime : Option Nat
  nextExecutionTime : Option Nat
  lastPromptId : Option String
  executionCount : Nat
  executionPhase : Option String
  executionProgress : Nat
deriving Repr, DecidableEq

/-- Default state created lazily on first query
(`_get_workflow_state`, `src/workflow-server/main.py` lines 497-509). -/
def defaultState : WorkflowState :=
  { isActive := false
    isRunning := false
    cancelled := false
    lastExecutionTime := none
    nextExecutionTime := none
    lastPromptId := none
    executionCount := 0
    executionPhase := none
    executionProgress := 0 }

/-- A merge-patch on a `WorkflowState`: `none` means the field is absent from
the update dict, `some v` means the dict carries value `v` for the field.
Mirrors the `updates` dicts passed to `_update_workflow_state`
(`src/workflow-server/main.py` lines 513-522), which does
`state[workflow_id].update(updates)`. -/
structure StateUpdate where
  isActive : Option Bool := none
  isRunning : Option Bool := none
  cancelled : Option Bool := none
  lastExecutionTime : Option (Option Nat) := none
  nextExecutionTime : Option (Option Nat) := none
  lastPromptId : Option (Option String) := none
  executionCount : Option Nat := none
  executionPhase : Option (Option String) := none
  executionProgress : Option Nat := none
deriving Repr, DecidableEq

/-- Dict-update (merge-patch) semantics of `_update_workflow_state`: only the
fields present in the update change. -/
def applyUpdate (s : WorkflowState) (u : StateUpdate) : WorkflowState :=
  { isActive := u.isActive.getD s.isActive
    isRunning := u.isRunning.getD s.isRunning
    cancelled := u.cancelled.getD s.cancelled
    lastExecutionTime := u.lastExecutionTime.getD s.lastExecutionTime
    nextExecutionTime := u.nextExecutionTime.getD s.nextExecutionTime
    lastPromptId := u.lastPromptId.getD s.lastPromptId
    executionCount := u.executionCount.getD s.executionCount
    executionPhase := u.executionPhase.getD s.executionPhase
    executionProgress := u.executionProgress.getD s.executionProgress }

/-- The per-user state store `workflow_state_{user_id}.json`: an association
list from workflow id to state. -/
abbrev Store := List (String × WorkflowState)

/-- Read a workflow state from the store; a missing record is the default
record (`_get_workflow_state` initialises it on first query). -/
def getState (store : Store) (wid : String) : WorkflowState :=
  (store.lookup wid).getD defaultState

/-- Write a full record for one workflow id, keeping the others: dict
assignment `state[workflow_id] = record` on the JSON object. -/
def setState : Store → String → WorkflowState → Store
  | [], wid, s => [(wid, s)]
  | p :: rest, wid, s =>
    if p.1 = wid then (wid, s) :: rest else p :: setState rest wid s

/-- Read-modify-write of one record, the store-level view of
`_update_workflow_state`. -/
def updateState (store : Store) (wid : String) (u : StateUpdate) : Store :=
  setState store wid (applyUpdate (getState store wid) u)

/-- Record of one worker spawn performed by a scheduler tick: the workflow id,
the state the tick read just before dispatching, and the contents of the state
store at the moment the worker thread is started. -/
structure Spawn where
  workflowId : String
  preState : WorkflowState
  storeAtSpawn : Store
deriving Repr, DecidableEq

namespace WorkflowServer

/-- Due-time test of `_check_and_execute_workflows` in
`src/workflow-server/workflow_scheduler.py` (lines 100-109): execute only when
`nextExecutionTime` is set and `current_time` is at or past it; an unset
`nextExecutionTime` never executes (first run owned by the activation path). -/
def shouldExecute (now : Nat) (state : WorkflowState) : Bool :=
  match state.nextExecutionTime with
  | none => false
  | some t => decide (t ≤ now)

/-- Dispatch guard of one tick iteration
(`src/workflow-server/workflow_scheduler.py` lines 91 and 111): skip unless
active, not running, not cancelled, and due. -/
def dispatches (now : Nat) (state : WorkflowState) : Bool :=
  state.isActive && !state.isRunning && !state.cancelled && shouldExecute now state

/-- One scheduler tick over the listed workflow ids
(`_check_and_execute_workflows` plus `_execute_workflow_async`,
`src/workflow-server/workflow_scheduler.py` lines 73-158). For each due
workflow the tick synchronously writes `isRunning := true` into the store
(line 136) and only then spawns the worker (lines 156-158); the spawn record
carries the store as the worker sees it at start. -/
def tick (now : Nat) : Store → List String → Store × List Spawn
  | store, [] => (store, [])
  | store, wid :: rest =>
    if dispatches now (getState store wid) then
      ((tick now (updateState store wid { isRunning := some true }) rest).1,
        ⟨wid, getState store wid, updateState store wid { isRunning := some true }⟩ ::
          (tick now (updateState store wid { isRunning := some true }) rest).2)
    else
      tick now store rest

end WorkflowServer

namespace LegacyServer

/-- Due-time test of `_check_and_execute_workflows` in
`src/server/workflow_scheduler.py` (lines 94-106): when `nextExecutionTime` is
`None` the workflow executes immediately on the tick. -/
def shouldExecute (now : Nat) (state : WorkflowState) : Bool :=
  match state.nextExecutionTime with
  | none => true
  | some t => decide (t ≤ now)

/-- Dispatch guard of one legacy tick iteration
(`src/server/workflow_scheduler.py` lines 88 and 108): skip unless active and
not running; there is no `cancelled` check in this variant. -/
def dispatches (now : Nat) (state : WorkflowState) : Bool :=
  state.isActive && !state.isRunning && shouldExecute now state

/-- One legacy scheduler tick (`src/server/workflow_scheduler.py` lines
73-139). Its `_execute_workflow_async` (lines 117-139) performs no state-store
write before starting the worker thread: the spawn sees the store unchanged,
and `isRunning` is only set later, inside the worker, by `execute_workflow`. -/
def tick (now : Nat) : Store → List String → Store × List Spawn
  | store, [] => (store, [])
  | store, wid :: rest =>
    if dispatches now (getState store wid) then
      ((tick now store rest).1, ⟨wid, getState store wid, store⟩ :: (tick now store rest).2)
    else
      tick now store rest

end LegacyServer

namespace Executor

/-- Outcome of one clip generation attempt as observed by
`_execute_multi_clip_text_to_video` in `src/server/workflow_executor.py`:
submission can fail (lines 341-346), polling can report a backend error
(line 1023) or exceed the 10-minute timeout (line 1031), and the artifact
download can fail (lines 847-913); otherwise the clip lands in the temp
workspace. -/
inductive ClipOutcome
  | ok
  | submitFail
  | jobError
  | jobTimeout
  | downloadFail
deriving Repr, DecidableEq

/-- The isolated temporary workspace of one execution: which clip files it
holds and whether the directory itself exists. -/
structure TempWorkspace where
  files : List Nat
  dirPresent : Bool
deriving Repr, DecidableEq

/-- Cleanup of `_cleanup_temp_files` (`src/server/workflow_executor.py` lines
976-1000): each recorded clip path is deleted with `os.remove`, then `os.rmdir`
removes the directory, which succeeds exactly when it is empty afterwards. -/
def cleanup_temp_files (clip_paths : List Nat) (ws : TempWorkspace) : TempWorkspace :=
  { files := ws.files.filter (fun f => f ∉ clip_paths)
    dirPresent := ws.dirPresent && !(ws.files.filter (fun f => f ∉ clip_paths)).isEmpty }

/-- Environment of one multi-clip run: the per-clip backend outcomes in
narrative order, whether an output folder is configured, whether the ffmpeg
concat invocation succeeds, and the wall-clock time at the final state
update. -/
structure RunEnv where
  outcomes : List ClipOutcome
  outputFolder : Bool
  concatOk : Bool
  completionTime : Nat
deriving Repr, DecidableEq

/-- Result of the sequential clip loop. -/
structure LoopResult where
  state : WorkflowState
  ws : TempWorkspace
  clip_paths : List Nat
  ok : Bool
deriving Repr, DecidableEq

/-- The sequential clip loop of `_execute_multi_clip_text_to_video`
(`src/server/workflow_executor.py` lines 305-370): for each clip, submit
(aborting on failure), record `lastPromptId` (line 352, after a successful
submission), poll to completion (aborting on error or timeout), download into
the temp workspace under the clip index (aborting on failure). -/
def runClips : WorkflowState → TempWorkspace → List ClipOutcome → Nat → List Nat → LoopResult
  | st, ws, [], _, clips => ⟨st, ws, clips, true⟩
  | st, ws, o :: rest, i, clips =>
    match o with
    | .submitFail => ⟨st, ws, clips, false⟩
    | .jobError => ⟨applyUpdate st { lastPromptId := some (some (toString i)) }, ws, clips, false⟩
    | .jobTimeout => ⟨applyUpdate st { lastPromptId := some (some (toString i)) }, ws, clips, false⟩
    | .downloadFail => ⟨applyUpdate st { lastPromptId := some (some (toString i)) }, ws, clips, false⟩
    | .ok =>
        runClips (applyUpdate st { lastPromptId := some (some (toString i)) })
          { files := ws.files ++ [i], dirPresent := ws.dirPresent } rest (i + 1) (clips ++ [i])

/-- Result of one multi-clip execution. -/
structure RunResult where
  success : Bool
  state : WorkflowState
  ws : TempWorkspace
  artifactWritten : Bool
deriving Repr, DecidableEq

/-- One multi-clip text-to-video execution,
`_execute_multi_clip_text_to_video` (`src/server/workflow_executor.py` lines
283-414). A temp directory is created first (line 302); clips run
sequentially; with an output folder configured, all clips are concatenated
into one artifact (lines 372-382, raising when the clip list is empty or
ffmpeg fails, in which case no artifact appears); the temp workspace is
cleaned up on success (line 385) and on every failure (line 409); the success
update (lines 387-398) clears `isRunning`, increments the freshly re-read
`executionCount`, and schedules `nextExecutionTime` at completion time plus
`schedule_minutes`; every failure path only clears `isRunning`
(lines 407-414). -/
def loopResult (state : WorkflowState) (env : RunEnv) : LoopResult :=
  runClips state { files := [], dirPresent := true } env.outcomes 1 []

/-- Body of `_execute_multi_clip_text_to_video` after the clip loop, combining
the three exits described on `loopResult`. -/
def execute_multi_clip_text_to_video (state : WorkflowState) (env : RunEnv)
    (schedule_minutes : Nat) : RunResult :=
  if (loopResult state env).ok then
    if env.outputFolder && ((loopResult state env).clip_paths.isEmpty || !env.concatOk) then
      { success := false
        state := applyUpdate (loopResult state env).state { isRunning := some false }
        ws := cleanup_temp_files (loopResult state env).clip_paths (loopResult state env).ws
        artifactWritten := false }
    else
      { success := true
        state := applyUpdate (loopResult state env).state
          { isRunning := some false
            executionCount := some ((loopResult state env).state.executionCount + 1)
            nextExecutionTime := some (some (env.completionTime + schedule_minutes)) }
        ws := cleanup_temp_files (loopResult state env).clip_paths (loopResult state env).ws
        artifactWritten := env.outputFolder }
  else
    { success := false
      state := applyUpdate (loopResult state env).state { isRunning := some false }
      ws := cleanup_temp_files (loopResult state env).clip_paths (loopResult state env).ws
      artifactWritten := false }

end Executor

namespace RoutesAi

/-- Padding loop of `generate_prompts` in `src/api-server/app/routes_ai.py`
(lines 304-306): while the list is short, append its last element, or the
concept when the list is empty. -/
def padPrompts (concept : String) : Nat → List String → List String
  | 0, ps => ps
  | k + 1, ps => padPrompts concept k (ps ++ [ps.getLast?.getD concept])

/-- Mismatch correction of `generate_prompts` (`src/api-server/app/routes_ai.py`
lines 298-307): a list of the wrong length is truncated to the first
`number_of_clips` elements, or padded up to `number_of_clips` by the loop
above, before the response is returned. -/
def fixPromptCount (prompts : List String) (number_of_clips : Nat) (concept : String) :
    List String :=
  if prompts.length = number_of_clips then prompts
  else if number_of_clips < prompts.length then prompts.take number_of_clips
  else padPrompts concept (number_of_clips - prompts.length) prompts

end RoutesAi

namespace AiAgent

/-- Validation performed by the workflow-server agent client
(`src/workflow-server/ai_agent.py` lines 122-154) on the prompt list received
from the api-server: an empty list, a wrong count, or a blank prompt raises,
so a short or long list is never handed to job submission. -/
def validate_prompts (prompts : List String) (numberOfClips : Nat) :
    Except String (List String) :=
  if prompts.isEmpty then
    .error "AI agent returned empty prompts list"
  else if prompts.length ≠ numberOfClips then
    .error "AI agent returned incorrect number of prompts"
  else if !(prompts.all (fun p => p.data.any (fun ch => !ch.isWhitespace))) then
    .error "AI agent returned invalid prompt format"
  else
    .ok prompts

end AiAgent

namespace Memory

/-- An embedding vector; the Python floats are idealised as rationals. -/
abbrev Vec := List ℚ

/-- Dot product of `_cosine_similarity` (`src/workflow-server/main.py` line
601): `sum(a * b for a, b in zip(vec1, vec2))`. -/
def dotProduct (a b : Vec) : ℚ := ((a.zip b).map (fun p => p.1 * p.2)).sum

/-- Sum of squares, so that the magnitude of line 604 is its square root. -/
def sumSq (a : Vec) : ℚ := dotProduct a a

/-- Cosine similarity, `_cosine_similarity` (`src/workflow-server/main.py`
lines 586-610): `dot / (magnitude1 * magnitude2)`, and `0.0` when either
magnitude is zero. Stated over the reals since the magnitudes are square
roots. -/
noncomputable def cosine_similarity (a b : Vec) : ℝ :=
  if Real.sqrt ((sumSq a : ℚ) : ℝ) = 0 ∨ Real.sqrt ((sumSq b : ℚ) : ℝ) = 0 then 0
  else ((dotProduct a b : ℚ) : ℝ) / (Real.sqrt ((sumSq a : ℚ) : ℝ) * Real.sqrt ((sumSq b : ℚ) : ℝ))

/-- A similarity value carried exactly: the pair `(d, N)` denotes
`d / sqrt N`, or `0` when `N = 0`. -/
noncomputable def simVal (d N : ℚ) : ℝ :=
  if N = 0 then 0 else ((d : ℚ) : ℝ) / Real.sqrt ((N : ℚ) : ℝ)

/-- Sign of `simVal d N`. -/
def simSign (d N : ℚ) : Int :=
  if N = 0 then 0 else if d < 0 then -1 else if d = 0 then 0 else 1

/-- Exact decision of `simVal d1 N1 ≤ simVal d2 N2` for nonnegative `N1`,
`N2`, comparing signs first and then cross-multiplied squares. -/
def simLE (d1 N1 d2 N2 : ℚ) : Bool :=
  if simSign d1 N1 < simSign d2 N2 then true
  else if simSign d2 N2 < simSign d1 N1 then false
  else if simSign d1 N1 = 1 then decide (d1 ^ 2 * N2 ≤ d2 ^ 2 * N1)
  else if simSign d1 N1 = -1 then decide (d2 ^ 2 * N1 ≤ d1 ^ 2 * N2)
  else true

/-- One prompt-history entry (`_save_prompt_history`,
`src/workflow-server/main.py` lines 636-646): timestamp, concept and prompts
always; summary and embedding only when the corresponding service call
produced a truthy value (a `None` or empty value is modelled as `none`). -/
structure HistoryEntry where
  timestamp : Nat
  concept : String
  prompts : List String
  summary : Option String
  embedding : Option Vec
deriving Repr, DecidableEq

/-- Similarity key a history entry receives in `_get_relevant_prompts`
(`src/workflow-server/main.py` lines 693-705): the cosine of its embedding
against the query embedding; an entry without an embedding gets `0.0`
(line 705), and a dimension mismatch raises inside `_cosine_similarity` and is
caught to `0.0` (lines 699-702). Returned as the exact pair `(d, N)` denoting
`d / sqrt N`. -/
def entryKey (q : Vec) (e : HistoryEntry) : ℚ × ℚ :=
  match e.embedding with
  | none => (0, 0)
  | some v => if v.length = q.length then (dotProduct q v, sumSq q * sumSq v) else (0, 0)

/-- Real-valued similarity key of an entry, in terms of `cosine_similarity`. -/
noncomputable def entryCos (q : Vec) (e : HistoryEntry) : ℝ :=
  match e.embedding with
  | none => 0
  | some v => if v.length = q.length then cosine_similarity q v else 0

/-- Ordering used to sort indexed entries: `a` comes before `b` exactly when
`a` has strictly larger similarity, or equal similarity and a smaller original
position. This is the order produced by the stable descending sort of
line 708 (`entries_with_similarity.sort(key, reverse=True)` keeps equal keys
in original, newest-first order). -/
def entryLE (q : Vec) (a b : Nat × HistoryEntry) : Bool :=
  if simLE (entryKey q a.2).1 (entryKey q a.2).2 (entryKey q b.2).1 (entryKey q b.2).2 then
    simLE (entryKey q b.2).1 (entryKey q b.2).2 (entryKey q a.2).1 (entryKey q a.2).2 &&
      decide (a.1 ≤ b.1)
  else true

/-- The ranked entry list of `_get_relevant_prompts`: entries paired with
their original (newest-first) positions, sorted by descending similarity with
ties kept in original order. -/
def rankedEntries (q : Vec) (history : List HistoryEntry) : List (Nat × HistoryEntry) :=
  history.enum.mergeSort (entryLE q)

/-- Retrieval, `_get_relevant_prompts` (`src/workflow-server/main.py` lines
658-719): empty history returns nothing; a failed concept embedding
(`conceptEmbedding = none`) falls back to the `limit` most recent entries
(lines 680-690); otherwise the top `limit` entries of the similarity ranking
are taken (lines 707-719). The flattened prompts and the summaries of the
selected entries are returned. -/
def get_relevant_prompts (history : List HistoryEntry) (conceptEmbedding : Option Vec)
    (limit : Nat) : List String × List String :=
  if history.isEmpty then ([], [])
  else
    match conceptEmbedding with
    | none =>
      ((history.take limit).flatMap (fun e => e.prompts),
        (history.take limit).filterMap (fun e => e.summary))
    | some q =>
      (((rankedEntries q history).take limit).flatMap (fun p => p.2.prompts),
        ((rankedEntries q history).take limit).filterMap (fun p => p.2.summary))

/-- Entry construction in `_save_prompt_history` (`src/workflow-server/main.py`
lines 627-646): the summary is attempted first; the embedding is only
attempted when a summary was produced (lines 629-633), and either field is
stored only when truthy. -/
def mkHistoryEntry (ts : Nat) (concept : String) (prompts : List String)
    (summaryResult : Option String) (embedResult : Option Vec) : HistoryEntry :=
  { timestamp := ts
    concept := concept
    prompts := prompts
    summary := summaryResult
    embedding := match summaryResult with | none => none | some _ => embedResult }

/-- Persisting one run, `_save_prompt_history` (`src/workflow-server/main.py`
lines 648-653): the new entry is inserted at position 0 (newest first) and
the list is truncated to its first 10 entries when it exceeds 10. -/
def save_prompt_history (history : List HistoryEntry) (entry : HistoryEntry) :
    List HistoryEntry :=
  if (entry :: history).length > 10 then (entry :: history).take 10 else entry :: history

end Memory

namespace Endpoints

/-- Result of a workflow endpoint call: success flag, error message, the
workflow state record afterwards, and whether a pipeline worker thread was
started. -/
structure EndpointResult where
  ok : Bool
  error : Option String
  state : WorkflowState
  spawned : Bool
deriving Repr, DecidableEq

/-- Outcome of the subscription gate at the top of the activation endpoint
(`src/workflow-server/main.py` lines 1707-1742): the check can allow, deny, or
fail to reach the api-server, in which case activation proceeds with a
warning. -/
inductive SubscriptionCheck
  | allowed
  | denied
  | unavailable
deriving Repr, DecidableEq

/-- The activation endpoint, `activate_workflow` (`src/workflow-server/main.py`
lines 1696-1833): subscription denial returns first; an already-running
workflow returns an error without any state write or spawn (lines 1746-1751);
a missing workflow definition returns an error (lines 1753-1761); otherwise
the state is patched to active and running with `nextExecutionTime` cleared to
null (lines 1765-1769) and a worker is spawned immediately (lines 1784-1822). -/
def activate_workflow (sub : SubscriptionCheck) (workflowFound : Bool)
    (s : WorkflowState) : EndpointResult :=
  match sub with
  | .denied => { ok := false, error := some "Subscription limit reached", state := s, spawned := false }
  | _ =>
    if s.isRunning then
      { ok := false
        error := some "Cannot activate workflow that is currently running"
        state := s
        spawned := false }
    else if workflowFound = false then
      { ok := false, error := some "Workflow not found", state := s, spawned := false }
    else
      { ok := true
        error := none
        state := applyUpdate s
          { isActive := some true, isRunning := some true, nextExecutionTime := some none }
        spawned := true }

/-- The cancel endpoint, `cancel_workflow` (`src/workflow-server/main.py`
lines 1907-1965): a workflow that is not running returns an error
(lines 1920-1924); a missing definition returns an error (lines 1929-1933);
otherwise the state is patched to not running and cancelled with
`nextExecutionTime` pushed to `now` plus the schedule interval
(lines 1937-1944), and only afterwards a best-effort interrupt is sent to the
render backend, whose failure is caught and does not alter the already
written state (lines 1946-1954). `workflowSchedule` is `some m` when the
definition is found with interval `m` minutes. -/
def cancel_workflow (now : Nat) (workflowSchedule : Option Nat) (s : WorkflowState)
    (interruptOk : Bool) : EndpointResult :=
  if s.isRunning = false then
    { ok := false, error := some "Workflow is not currently running", state := s, spawned := false }
  else
    match workflowSchedule with
    | none => { ok := false, error := some "Workflow not found", state := s, spawned := false }
    | some m =>
      { ok := true
        error := none
        state := applyUpdate s
          { isRunning := some false
            cancelled := some true
            nextExecutionTime := some (some (now + m)) }
        spawned := false }

/-- The manual execution endpoint, `execute_workflow_manual`
(`src/workflow-server/main.py` lines 2015-2086): a missing definition or an
already-running workflow returns an error; otherwise a worker is spawned with
no synchronous state write (the pipeline sets `isRunning` itself). -/
def execute_workflow_manual (workflowFound : Bool) (s : WorkflowState) : EndpointResult :=
  if workflowFound = false then
    { ok := false, error := some "Workflow not found", state := s, spawned := false }
  else if s.isRunning then
    { ok := false, error := some "Workflow is already running", state := s, spawned := false }
  else
    { ok := true, error := none, state := s, spawned := true }

end Endpoints

/-- Every state-store merge-patch issued anywhere in the embedded core: the
scheduler (`src/workflow-server/workflow_scheduler.py` lines 136 and 154), the
endpoint handlers (`src/workflow-server/main.py` lines 1765, 1819, 1854, 1891,
1940, 2072) and the generation pipeline (`src/server/workflow_executor.py`
lines 70, 113, 237, 262, 352, 394 and their twins in the other execution
variants). -/
inductive Op
  | schedulerDispatch
  | schedulerErrorReset
  | activate
  | activateErrorReset
  | deactivate
  | cancel (next : Nat)
  | manualExecuteErrorReset
  | runStart (startTime : Nat)
  | runError
  | setLastPromptId (pid : String)
  | runSuccess (count : Nat) (next : Nat)
deriving Repr, DecidableEq

/-- The update dict each operation passes to `_update_workflow_state`,
transcribed from the source lines listed on `Op`. -/
def Op.patch : Op → StateUpdate
  | .schedulerDispatch => { isRunning := some true }
  | .schedulerErrorReset => { isRunning := some false }
  | .activate => { isActive := some true, isRunning := some true, nextExecutionTime := some none }
  | .activateErrorReset => { isRunning := some false }
  | .deactivate => { isActive := some false }
  | .cancel next =>
      { isRunning := some false, cancelled := some true, nextExecutionTime := some (some next) }
  | .manualExecuteErrorReset => { isRunning := some false }
  | .runStart startTime => { isRunning := some true, lastExecutionTime := some (some startTime) }
  | .runError => { isRunning := some false }
  | .setLastPromptId pid => { lastPromptId := some (some pid) }
  | .runSuccess count next =>
      { isRunning := some false
        executionCount := some count
        nextExecutionTime := some (some next) }

/-- Concrete example state used in witnesses: active, idle, not cancelled,
due at time 0. -/
def dueState : WorkflowState :=
  { defaultState with isActive := true, nextExecutionTime := some 0 }

/-- Example state at pipeline entry: running, start time recorded at 50,
next run previously scheduled at 70. -/
def runningState : WorkflowState :=
  { defaultState with
      isActive := true
      isRunning := true
      lastExecutionTime := some 50
      nextExecutionTime := some 70 }

/-- Example run environment in which every one of three clips succeeds. -/
def envOk : Executor.RunEnv :=
  { outcomes := [Executor.ClipOutcome.ok, Executor.ClipOutcome.ok, Executor.ClipOutcome.ok]
    outputFolder := true
    concatOk := true
    completionTime := 100 }

/-- Example state of a workflow after a cancel: active, idle, cancelled,
with a due next execution time. -/
def cancelledState : WorkflowState :=
  { defaultState with isActive := true, cancelled := true, nextExecutionTime := some 0 }

/-- Example run environment in which clip 2 of 3 times out. -/
def envTimeout : Executor.RunEnv :=
  { outcomes := [Executor.ClipOutcome.ok, Executor.ClipOutcome.jobTimeout, Executor.ClipOutcome.ok]
    outputFolder := true
    concatOk := true
    completionTime := 100 }

/-! Helper lemmas about the state store. -/

theorem lookup_setState_self (store : Store) (wid : String) (s : WorkflowState) :
    (setState store wid s).lookup wid = some s := by
  induction store with
  | nil => simp [setState, List.lookup]
  | cons p rest ih =>
    by_cases h : p.1 = wid
    · simp [setState, h, List.lookup]
    · simp [setState, h, List.lookup, ih, show (wid == p.1) = false by simp [Ne.symm h]]

/-- Reading back the record just written. -/
theorem getState_setState (store : Store) (wid : String) (s : WorkflowState) :
    getState (setState store wid s) wid = s := by
  simp [getState, lookup_setState_self]

/-- Reading after a merge-patch write gives the patched record. -/
theorem getState_updateState (store : Store) (wid : String) (u : StateUpdate) :
    getState (updateState store wid u) wid = applyUpdate (getState store wid) u := by
  simp [updateState, getState_setState]

/-- C1 (amended): in the workflow-server scheduler every tick-dispatched
workflow has `isRunning` written to true in the state store synchronously
before the worker thread is spawned, and no worker is ever spawned for a
workflow whose state already has `isRunning = true`; the legacy server
scheduler also never dispatches a workflow whose state reads
`isRunning = true`, but performs no store write before spawning, so the
mutual-exclusion flag is only set later inside the worker. -/
theorem C1_single_flight_dispatch :
    (∀ (now : Nat) (store : Store) (ids : List String),
      ∀ sp ∈ (WorkflowServer.tick now store ids).2,
        sp.preState.isRunning = false ∧
        (getState sp.storeAtSpawn sp.workflowId).isRunning = true) ∧
    (∀ (now : Nat) (store : Store) (ids : List String),
      ∀ sp ∈ (LegacyServer.tick now store ids).2, sp.preState.isRunning = false) := by
  constructor
  · intro now store ids
    induction ids generalizing store with
    | nil => intro sp h; simp [WorkflowServer.tick] at h
    | cons wid rest ih =>
      intro sp hsp
      simp only [WorkflowServer.tick] at hsp
      split at hsp
      case isTrue hd =>
        rcases List.mem_cons.mp hsp with h | h
        · subst h
          refine ⟨?_, ?_⟩
          · have hd2 := hd
            simp only [WorkflowServer.dispatches, Bool.and_eq_true, Bool.not_eq_true'] at hd2
            tauto
          · simp [getState_updateState, applyUpdate]
        · exact ih _ sp h
      case isFalse hd => exact ih _ sp hsp
  · intro now store ids
    induction ids generalizing store with
    | nil => intro sp h; simp [LegacyServer.tick] at h
    | cons wid rest ih =>
      intro sp hsp
      simp only [LegacyServer.tick] at hsp
      split at hsp
      case isTrue hd =>
        rcases List.mem_cons.mp hsp with h | h
        · subst h
          have hd2 := hd
          simp only [LegacyServer.dispatches, Bool.and_eq_true, Bool.not_eq_true'] at hd2
          tauto
        · exact ih _ sp h
      case isFalse hd => exact ih _ sp hsp

/-- Witness for C1 at a concrete one-workflow store: the dispatched state was
idle and the store seen by the spawned worker has the flag set. -/
theorem C1_single_flight_dispatch_witness :
    (dueState.isRunning = false ∧
      (getState (updateState [("w1", dueState)] "w1" { isRunning := some true })
        "w1").isRunning = true) ∧
    dueState.isRunning = false :=
  ⟨C1_single_flight_dispatch.1 5 [("w1", dueState)] ["w1"]
      ⟨"w1", dueState, updateState [("w1", dueState)] "w1" { isRunning := some true }⟩
      (by decide),
    C1_single_flight_dispatch.2 5 [("w1", dueState)] ["w1"]
      ⟨"w1", dueState, [("w1", dueState)]⟩ (by decide)⟩

/-- C1 counterexample: the legacy server scheduler dispatches a due workflow
while the state store still holds `isRunning = false` at the moment the
worker starts, and a second tick arriving before any worker write dispatches
the same workflow a second time; the workflow-server scheduler dispatches
nothing on its second tick over the same store. -/
theorem C1_counterexample :
    ((LegacyServer.tick 5 [("w1", dueState)] ["w1"]).2.map
      (fun sp => (getState sp.storeAtSpawn sp.workflowId).isRunning)) = [false] ∧
    ((LegacyServer.tick 5 (LegacyServer.tick 5 [("w1", dueState)] ["w1"]).1 ["w1"]).2.map
      Spawn.workflowId) = ["w1"] ∧
    (WorkflowServer.tick 5 (WorkflowServer.tick 5 [("w1", dueState)] ["w1"]).1 ["w1"]).2 = [] := by
  decide

/-- C2 (amended): for an active, non-running, non-cancelled workflow the
workflow-server scheduler tick dispatches exactly when `nextExecutionTime` is
set and now is at or past it, and it never dispatches a workflow whose
`nextExecutionTime` is unset (that first run belongs to the activation path);
the legacy server scheduler instead executes immediately when
`nextExecutionTime` is unset. -/
theorem C2_tick_due_test :
    (∀ (now : Nat) (s : WorkflowState), s.isActive = true → s.isRunning = false →
      s.cancelled = false →
      (WorkflowServer.dispatches now s = true ↔
        ∃ t, s.nextExecutionTime = some t ∧ t ≤ now)) ∧
    (∀ (now : Nat) (s : WorkflowState), s.nextExecutionTime = none →
      WorkflowServer.dispatches now s = false) := by
  constructor
  · intro now s hA hR hC
    cases hnx : s.nextExecutionTime with
    | none => simp [WorkflowServer.dispatches, WorkflowServer.shouldExecute, hA, hR, hC, hnx]
    | some t => simp [WorkflowServer.dispatches, WorkflowServer.shouldExecute, hA, hR, hC, hnx]
  · intro now s hn
    simp [WorkflowServer.dispatches, WorkflowServer.shouldExecute, hn]

/-- Witness for C2: the due example state is dispatched, and the same state
with `nextExecutionTime` unset is not. -/
theorem C2_tick_due_test_witness :
    WorkflowServer.dispatches 5 dueState = true ∧
    WorkflowServer.dispatches 5 { dueState with nextExecutionTime := none } = false :=
  ⟨(C2_tick_due_test.1 5 dueState rfl rfl rfl).mpr ⟨0, rfl, by decide⟩,
    C2_tick_due_test.2 5 { dueState with nextExecutionTime := none } rfl⟩

/-! Helper lemmas about the clip loop. -/

theorem runClips_state_fields (st : WorkflowState) (ws : Executor.TempWorkspace)
    (outs : List Executor.ClipOutcome) (i : Nat) (clips : List Nat) :
    (Executor.runClips st ws outs i clips).state.executionCount = st.executionCount ∧
    (Executor.runClips st ws outs i clips).state.nextExecutionTime = st.nextExecutionTime ∧
    (Executor.runClips st ws outs i clips).state.lastExecutionTime = st.lastExecutionTime ∧
    (Executor.runClips st ws outs i clips).state.isRunning = st.isRunning := by
  induction outs generalizing st ws i clips with
  | nil => simp [Executor.runClips]
  | cons o rest ih =>
    cases o with
    | ok =>
      have h := ih (applyUpdate st { lastPromptId := some (some (toString i)) })
        { files := ws.files ++ [i], dirPresent := ws.dirPresent } (i + 1) (clips ++ [i])
      simpa [Executor.runClips, applyUpdate] using h
    | submitFail => simp [Executor.runClips]
    | jobError => simp [Executor.runClips, applyUpdate]
    | jobTimeout => simp [Executor.runClips, applyUpdate]
    | downloadFail => simp [Executor.runClips, applyUpdate]

theorem runClips_ws (st : WorkflowState) (ws : Executor.TempWorkspace)
    (outs : List Executor.ClipOutcome) (i : Nat) (clips : List Nat)
    (h : ws.files = clips) :
    (Executor.runClips st ws outs i clips).ws.files
        = (Executor.runClips st ws outs i clips).clip_paths ∧
    (Executor.runClips st ws outs i clips).ws.dirPresent = ws.dirPresent := by
  induction outs generalizing st ws i clips with
  | nil => simpa [Executor.runClips] using h
  | cons o rest ih =>
    cases o with
    | ok =>
      have h2 := ih (applyUpdate st { lastPromptId := some (some (toString i)) })
        { files := ws.files ++ [i], dirPresent := ws.dirPresent } (i + 1) (clips ++ [i])
        (by simp [h])
      simpa [Executor.runClips] using h2
    | submitFail => simpa [Executor.runClips] using h
    | jobError => simpa [Executor.runClips] using h
    | jobTimeout => simpa [Executor.runClips] using h
    | downloadFail => simpa [Executor.runClips] using h

theorem runClips_ok_iff (st : WorkflowState) (ws : Executor.TempWorkspace)
    (outs : List Executor.ClipOutcome) (i : Nat) (clips : List Nat) :
    (Executor.runClips st ws outs i clips).ok = true ↔
      ∀ o ∈ outs, o = Executor.ClipOutcome.ok := by
  induction outs generalizing st ws i clips with
  | nil => simp [Executor.runClips]
  | cons o rest ih =>
    cases o with
    | ok => simp [Executor.runClips, ih]
    | submitFail => simp [Executor.runClips]
    | jobError => simp [Executor.runClips]
    | jobTimeout => simp [Executor.runClips]
    | downloadFail => simp [Executor.runClips]

/-- Removing the recorded clip paths from a workspace holding exactly those
paths empties it, and the empty directory is then removed. -/
theorem cleanup_temp_files_self (clips : List Nat) (d : Bool) :
    Executor.cleanup_temp_files clips ⟨clips, d⟩ = ⟨[], false⟩ := by
  have h : clips.filter (fun f => decide (f ∉ clips)) = [] := by
    rw [List.filter_eq_nil_iff]
    intro a ha
    simp [ha]
  simp [Executor.cleanup_temp_files, h]

/-- C3: a successful multi-clip execution ends by clearing `isRunning`,
incrementing `executionCount` by exactly one, and scheduling
`nextExecutionTime` at the completion time plus `schedule_minutes`, which is
at least `lastExecutionTime` plus the interval; a failed execution ends by
clearing `isRunning` only, leaving `nextExecutionTime` and `executionCount`
exactly as they were. -/
theorem C3_terminal_state_update (state : WorkflowState) (env : Executor.RunEnv)
    (I t0 : Nat) (hlast : state.lastExecutionTime = some t0)
    (hclock : t0 ≤ env.completionTime) :
    ((Executor.execute_multi_clip_text_to_video state env I).success = true →
      (Executor.execute_multi_clip_text_to_video state env I).state.isRunning = false ∧
      (Executor.execute_multi_clip_text_to_video state env I).state.executionCount
        = state.executionCount + 1 ∧
      (Executor.execute_multi_clip_text_to_video state env I).state.nextExecutionTime
        = some (env.completionTime + I) ∧
      (Executor.execute_multi_clip_text_to_video state env I).state.lastExecutionTime
        = some t0 ∧
      t0 + I ≤ env.completionTime + I) ∧
    ((Executor.execute_multi_clip_text_to_video state env I).success = false →
      (Executor.execute_multi_clip_text_to_video state env I).state.isRunning = false ∧
      (Executor.execute_multi_clip_text_to_video state env I).state.nextExecutionTime
        = state.nextExecutionTime ∧
      (Executor.execute_multi_clip_text_to_video state env I).state.executionCount
        = state.executionCount) := by
  obtain ⟨hc, hn, hl, hr⟩ :=
    runClips_state_fields state { files := [], dirPresent := true } env.outcomes 1 []
  by_cases hok : (Executor.loopResult state env).ok = true
  · by_cases hcc :
      (env.outputFolder && ((Executor.loopResult state env).clip_paths.isEmpty
        || !env.concatOk)) = true
    · constructor
      · intro hs
        simp only [Executor.execute_multi_clip_text_to_video, hok, hcc, if_true] at hs
        simp at hs
      · intro _
        simp only [Executor.execute_multi_clip_text_to_video, hok, hcc, if_true]
        refine ⟨by simp [applyUpdate], ?_, ?_⟩
        · simpa [applyUpdate, Executor.loopResult] using hn
        · simpa [applyUpdate, Executor.loopResult] using hc
    · constructor
      · intro _
        simp only [Executor.execute_multi_clip_text_to_video, hok, hcc, if_true, if_false,
          Bool.false_eq_true]
        refine ⟨by simp [applyUpdate], ?_, by simp [applyUpdate], ?_, ?_⟩
        · simp [applyUpdate]
          simpa [Executor.loopResult] using hc
        · simp [applyUpdate]
          simpa [Executor.loopResult] using hl.trans hlast
        · omega
      · intro hs
        simp only [Executor.execute_multi_clip_text_to_video, hok, hcc, if_true, if_false,
          Bool.false_eq_true] at hs
        simp at hs
  · constructor
    · intro hs
      simp only [Executor.execute_multi_clip_text_to_video, hok, if_false,
        Bool.false_eq_true] at hs
    · intro _
      simp only [Executor.execute_multi_clip_text_to_video, hok, if_false, Bool.false_eq_true]
      refine ⟨by simp [applyUpdate], ?_, ?_⟩
      · simpa [applyUpdate, Executor.loopResult] using hn
      · simpa [applyUpdate, Executor.loopResult] using hc

/-- Witness for C3: a concrete three-clip all-success run from a state whose
start time is 50, completing at 100 with a 60-minute interval. -/
theorem C3_terminal_state_update_witness :
    (Executor.execute_multi_clip_text_to_video runningState envOk 60).state.isRunning = false ∧
    (Executor.execute_multi_clip_text_to_video runningState envOk 60).state.executionCount
      = runningState.executionCount + 1 ∧
    (Executor.execute_multi_clip_text_to_video runningState envOk 60).state.nextExecutionTime
      = some (envOk.completionTime + 60) ∧
    (Executor.execute_multi_clip_text_to_video runningState envOk 60).state.lastExecutionTime
      = some 50 ∧
    50 + 60 ≤ envOk.completionTime + 60 :=
  (C3_terminal_state_update runningState envOk 60 50 rfl (by decide)).1 (by decide)

/-- C5: the temporary workspace of a multi-clip execution is always emptied
and its directory removed, on success and on every failure; and if any clip
fails (submission failure, backend job error, poll timeout, or download
failure), the whole execution aborts with no artifact written to the output
location. -/
theorem C5_cleanup_and_abort (state : WorkflowState) (env : Executor.RunEnv) (I : Nat) :
    ((Executor.execute_multi_clip_text_to_video state env I).ws.files = [] ∧
      (Executor.execute_multi_clip_text_to_video state env I).ws.dirPresent = false) ∧
    ((∃ o ∈ env.outcomes, o ≠ Executor.ClipOutcome.ok) →
      (Executor.execute_multi_clip_text_to_video state env I).artifactWritten = false ∧
      (Executor.execute_multi_clip_text_to_video state env I).success = false) := by
  have hws := runClips_ws state { files := [], dirPresent := true } env.outcomes 1 [] rfl
  have hwseq : (Executor.loopResult state env).ws
      = ⟨(Executor.loopResult state env).clip_paths, true⟩ := by
    cases hwx : (Executor.loopResult state env).ws with
    | mk fs d =>
      have h1 := hws.1
      have h2 := hws.2
      rw [show Executor.runClips state { files := [], dirPresent := true } env.outcomes 1 []
          = Executor.loopResult state env from rfl] at h1 h2
      rw [hwx] at h1 h2
      simp at h1 h2
      simp [h1, h2]
  constructor
  · have hclean := cleanup_temp_files_self (Executor.loopResult state env).clip_paths true
    by_cases hok : (Executor.loopResult state env).ok = true
    · by_cases hcc :
        (env.outputFolder && ((Executor.loopResult state env).clip_paths.isEmpty
          || !env.concatOk)) = true
      · simp only [Executor.execute_multi_clip_text_to_video, hok, hcc, if_true]
        rw [hwseq, hclean]
        exact ⟨rfl, rfl⟩
      · simp only [Executor.execute_multi_clip_text_to_video, hok, hcc, if_true, if_false,
          Bool.false_eq_true]
        rw [hwseq, hclean]
        exact ⟨rfl, rfl⟩
    · simp only [Executor.execute_multi_clip_text_to_video, hok, if_false, Bool.false_eq_true]
      rw [hwseq, hclean]
      exact ⟨rfl, rfl⟩
  · intro hbad
    have hok : ¬((Executor.loopResult state env).ok = true) := by
      intro h
      rw [show (Executor.loopResult state env).ok
          = (Executor.runClips state { files := [], dirPresent := true } env.outcomes 1 []).ok
          from rfl, runClips_ok_iff] at h
      obtain ⟨o, ho, hne⟩ := hbad
      exact hne (h o ho)
    simp only [Executor.execute_multi_clip_text_to_video, hok, if_false, Bool.false_eq_true]
    exact ⟨by trivial, by trivial⟩

/-- Witness for C5: with clip 2 of 3 timing out, the run fails, writes no
artifact, and leaves an empty, removed temp workspace. -/
theorem C5_cleanup_and_abort_witness :
    ((Executor.execute_multi_clip_text_to_video runningState envTimeout 60).ws.files = [] ∧
      (Executor.execute_multi_clip_text_to_video runningState envTimeout 60).ws.dirPresent
        = false) ∧
    (Executor.execute_multi_clip_text_to_video runningState envTimeout 60).artifactWritten
      = false ∧
    (Executor.execute_multi_clip_text_to_video runningState envTimeout 60).success = false :=
  ⟨(C5_cleanup_and_abort runningState envTimeout 60).1,
    (C5_cleanup_and_abort runningState envTimeout 60).2
      ⟨Executor.ClipOutcome.jobTimeout, by decide, by decide⟩⟩

/-- C4: cancelling a workflow whose state is running (and whose definition is
found, with interval `m`) succeeds, sets `cancelled`, clears `isRunning`,
schedules `nextExecutionTime` at `now + m`, and the outcome of the best-effort
interrupt call does not change the result; cancelling a workflow that is not
running returns an error and leaves the state untouched. -/
theorem C4_cancel_semantics (now m : Nat) (s : WorkflowState) (b : Bool) :
    (s.isRunning = true →
      (Endpoints.cancel_workflow now (some m) s b).ok = true ∧
      (Endpoints.cancel_workflow now (some m) s b).state.cancelled = true ∧
      (Endpoints.cancel_workflow now (some m) s b).state.isRunning = false ∧
      (Endpoints.cancel_workflow now (some m) s b).state.nextExecutionTime = some (now + m) ∧
      (∀ b2, Endpoints.cancel_workflow now (some m) s b2
          = Endpoints.cancel_workflow now (some m) s b)) ∧
    (s.isRunning = false →
      (Endpoints.cancel_workflow now (some m) s b).ok = false ∧
      (Endpoints.cancel_workflow now (some m) s b).error.isSome = true ∧
      (Endpoints.cancel_workflow now (some m) s b).state = s) := by
  constructor
  · intro h
    refine ⟨?_, ?_, ?_, ?_, ?_⟩ <;> simp [Endpoints.cancel_workflow, h, applyUpdate]
  · intro h
    refine ⟨?_, ?_, ?_⟩ <;> simp [Endpoints.cancel_workflow, h]

/-- Witness for C4 on the concrete running example state at time 100 with a
60-minute interval, and on the idle example state. -/
theorem C4_cancel_semantics_witness :
    (Endpoints.cancel_workflow 100 (some 60) runningState true).state.cancelled = true ∧
    (Endpoints.cancel_workflow 100 (some 60) runningState true).state.isRunning = false ∧
    (Endpoints.cancel_workflow 100 (some 60) runningState true).state.nextExecutionTime
      = some 160 ∧
    (Endpoints.cancel_workflow 100 (some 60) runningState false
      = Endpoints.cancel_workflow 100 (some 60) runningState true) ∧
    (Endpoints.cancel_workflow 100 (some 60) dueState true).ok = false :=
  ⟨((C4_cancel_semantics 100 60 runningState true).1 rfl).2.1,
    ((C4_cancel_semantics 100 60 runningState true).1 rfl).2.2.1,
    ((C4_cancel_semantics 100 60 runningState true).1 rfl).2.2.2.1,
    ((C4_cancel_semantics 100 60 runningState true).1 rfl).2.2.2.2 false,
    ((C4_cancel_semantics 100 60 dueState true).2 rfl).1⟩

/-- C9: activating a workflow whose state already has `isRunning = true`
returns an error, spawns no second execution, and leaves the state record
unchanged, whatever the subscription check and the definition lookup say. -/
theorem C9_activate_running_noop (sub : Endpoints.SubscriptionCheck) (found : Bool)
    (s : WorkflowState) (h : s.isRunning = true) :
    (Endpoints.activate_workflow sub found s).ok = false ∧
    (Endpoints.activate_workflow sub found s).error.isSome = true ∧
    (Endpoints.activate_workflow sub found s).spawned = false ∧
    (Endpoints.activate_workflow sub found s).state = s := by
  cases sub <;> simp [Endpoints.activate_workflow, h]

/-- Witness for C9 on the concrete running example state. -/
theorem C9_activate_running_noop_witness :
    (Endpoints.activate_workflow Endpoints.SubscriptionCheck.allowed true runningState).ok
      = false ∧
    (Endpoints.activate_workflow Endpoints.SubscriptionCheck.allowed true
      runningState).error.isSome = true ∧
    (Endpoints.activate_workflow Endpoints.SubscriptionCheck.allowed true
      runningState).spawned = false ∧
    (Endpoints.activate_workflow Endpoints.SubscriptionCheck.allowed true runningState).state
      = runningState :=
  C9_activate_running_noop Endpoints.SubscriptionCheck.allowed true runningState rfl

/-- C10: the cancel endpoint issues the only state patch that carries the
`cancelled` field, and it carries `true`; every patch in the core preserves
`cancelled = true`; the workflow-server scheduler tick never dispatches a
cancelled workflow; and the explicit activation and manual-execution
endpoints still run a cancelled, idle workflow. -/
theorem C10_cancelled_is_sticky :
    (∀ (op : Op) (s : WorkflowState), s.cancelled = true →
      (applyUpdate s op.patch).cancelled = true) ∧
    (∀ op : Op, (∀ t, op ≠ Op.cancel t) → op.patch.cancelled = none) ∧
    (∀ t, (Op.cancel t).patch.cancelled = some true) ∧
    (∀ (now : Nat) (s : WorkflowState), s.cancelled = true →
      WorkflowServer.dispatches now s = false) ∧
    (∀ s : WorkflowState, s.isRunning = false →
      (Endpoints.activate_workflow Endpoints.SubscriptionCheck.allowed true s).spawned
        = true ∧
      (Endpoints.execute_workflow_manual true s).spawned = true) := by
  refine ⟨?_, ?_, ?_, ?_, ?_⟩
  · intro op s h
    cases op <;> simp [Op.patch, applyUpdate, h]
  · intro op hne
    cases op
    case cancel t => exact absurd rfl (hne t)
    all_goals rfl
  · intro t
    rfl
  · intro now s h
    simp [WorkflowServer.dispatches, h]
  · intro s h
    exact ⟨by simp [Endpoints.activate_workflow, h], by
      simp [Endpoints.execute_workflow_manual, h]⟩

/-- Witness for C10 on the concrete cancelled example state: deactivation
keeps the flag, the tick skips it, activation still spawns. -/
theorem C10_cancelled_is_sticky_witness :
    (applyUpdate cancelledState Op.deactivate.patch).cancelled = true ∧
    WorkflowServer.dispatches 500 cancelledState = false ∧
    (Endpoints.activate_workflow Endpoints.SubscriptionCheck.allowed true
      cancelledState).spawned = true :=
  ⟨C10_cancelled_is_sticky.1 Op.deactivate cancelledState rfl,
    C10_cancelled_is_sticky.2.2.2.1 500 cancelledState rfl,
    (C10_cancelled_is_sticky.2.2.2.2 cancelledState rfl).1⟩

/-! Helper lemma for the prompt-count padding loop. -/

theorem padPrompts_eq (c : String) (k : Nat) (ps : List String) :
    RoutesAi.padPrompts c k ps = ps ++ List.replicate k (ps.getLast?.getD c) := by
  induction k generalizing ps with
  | zero => simp [RoutesAi.padPrompts]
  | succ n ih =>
    rw [RoutesAi.padPrompts, ih]
    simp [List.replicate_succ, List.append_assoc]

/-- C6: the prompt service route corrects a count mismatch before answering:
the corrected list always has exactly `n` elements, a longer list is cut to
its first `n` prompts, a shorter list is padded by repeating its last prompt
(or the concept when empty); and the workflow-server agent client only ever
returns a list whose length is exactly the requested count, so a short or
long list is never handed to job submission. -/
theorem C6_prompt_count_correction (prompts : List String) (n : Nat) (concept : String) :
    ((RoutesAi.fixPromptCount prompts n concept).length = n) ∧
    (n < prompts.length →
      RoutesAi.fixPromptCount prompts n concept = prompts.take n) ∧
    (prompts.length < n →
      RoutesAi.fixPromptCount prompts n concept
        = prompts ++ List.replicate (n - prompts.length) (prompts.getLast?.getD concept)) ∧
    (∀ ps2, AiAgent.validate_prompts prompts n = Except.ok ps2 →
      ps2 = prompts ∧ ps2.length = n) := by
  refine ⟨?_, ?_, ?_, ?_⟩
  · unfold RoutesAi.fixPromptCount
    split
    · next h => exact h
    · split
      · next h2 => simp [List.length_take]; omega
      · next h h2 => rw [padPrompts_eq]; simp; omega
  · intro h
    unfold RoutesAi.fixPromptCount
    rw [if_neg (by omega), if_pos h]
  · intro h
    unfold RoutesAi.fixPromptCount
    rw [if_neg (by omega), if_neg (by omega), padPrompts_eq]
  · intro ps2 h
    by_cases h1 : prompts.isEmpty
    · simp [AiAgent.validate_prompts, h1] at h
    · by_cases h2 : prompts.length = n
      · by_cases h3 : prompts.all (fun p => p.data.any (fun ch => !ch.isWhitespace)) = true
        · have he : ps2 = prompts := by
            simp [AiAgent.validate_prompts, h1, h2, h3] at h
            exact h.symm
          exact ⟨he, by rw [he, h2]⟩
        · simp [AiAgent.validate_prompts, h1, h2, h3] at h
      · simp [AiAgent.validate_prompts, h1, h2] at h

/-- Witness for C6: a two-prompt answer to a three-clip request is padded by
repeating the last prompt, a four-prompt answer is truncated, and the agent
client passes through an exact-count list. -/
theorem C6_prompt_count_correction_witness :
    RoutesAi.fixPromptCount ["a", "b"] 3 "c" = ["a", "b", "b"] ∧
    RoutesAi.fixPromptCount ["a", "b", "c", "d"] 3 "c" = ["a", "b", "c"] ∧
    (RoutesAi.fixPromptCount ["a", "b"] 3 "c").length = 3 ∧
    (["a", "b", "c"] : List String).length = 3 :=
  ⟨by simpa using (C6_prompt_count_correction ["a", "b"] 3 "c").2.2.1 (by decide),
    by simpa using (C6_prompt_count_correction ["a", "b", "c", "d"] 3 "c").2.1 (by decide),
    (C6_prompt_count_correction ["a", "b"] 3 "c").1,
    ((C6_prompt_count_correction ["a", "b", "c"] 3 "c").2.2.2 ["a", "b", "c"] rfl).2⟩

/-- C8: `recordRun` inserts the new entry (timestamp, concept, prompts, with
summary and embedding when both services produced values) at the head of the
history, and the stored list is always the first 10 entries of the extended
list: it never exceeds 10 entries and everything dropped is the oldest
suffix. -/
theorem C8_history_insert_cap (history : List Memory.HistoryEntry) (e : Memory.HistoryEntry)
    (ts : Nat) (c : String) (ps : List String) (s : String) (v : Memory.Vec) :
    (Memory.save_prompt_history history e = (e :: history).take 10) ∧
    ((Memory.save_prompt_history history e).head? = some e) ∧
    ((Memory.save_prompt_history history e).length ≤ 10) ∧
    (e :: history = Memory.save_prompt_history history e ++ (e :: history).drop 10) ∧
    ((Memory.mkHistoryEntry ts c ps (some s) (some v)).summary = some s ∧
      (Memory.mkHistoryEntry ts c ps (some s) (some v)).embedding = some v ∧
      (Memory.mkHistoryEntry ts c ps (some s) (some v)).timestamp = ts ∧
      (Memory.mkHistoryEntry ts c ps (some s) (some v)).concept = c ∧
      (Memory.mkHistoryEntry ts c ps (some s) (some v)).prompts = ps) := by
  have h1 : Memory.save_prompt_history history e = (e :: history).take 10 := by
    unfold Memory.save_prompt_history
    split
    · rfl
    · next h => exact (List.take_of_length_le (by omega)).symm
  refine ⟨h1, ?_, ?_, ?_, by simp [Memory.mkHistoryEntry]⟩
  · rw [h1]
    simp [List.take_succ_cons]
  · rw [h1]
    exact List.length_take_le 10 (e :: history)
  · rw [h1]
    exact (List.take_append_drop 10 (e :: history)).symm

/-! Helper lemmas for the similarity ranking. -/

theorem sumSq_cons (x : ℚ) (t : Memory.Vec) :
    Memory.sumSq (x :: t) = x * x + Memory.sumSq t := by
  simp [Memory.sumSq, Memory.dotProduct]

theorem sumSq_nonneg (a : Memory.Vec) : 0 ≤ Memory.sumSq a := by
  induction a with
  | nil => simp [Memory.sumSq, Memory.dotProduct]
  | cons x t ih =>
    rw [sumSq_cons]
    nlinarith [mul_self_nonneg x]

theorem simVal_pos_iff (d N : ℚ) (h : 0 < N) : 0 < Memory.simVal d N ↔ 0 < d := by
  have hs : 0 < Real.sqrt ((N : ℚ) : ℝ) := Real.sqrt_pos.mpr (by exact_mod_cast h)
  rw [Memory.simVal, if_neg (ne_of_gt h)]
  rw [div_pos_iff]
  constructor
  · rintro (⟨ha, _⟩ | ⟨_, hb⟩)
    · exact_mod_cast ha
    · linarith
  · intro hd
    exact Or.inl ⟨by exact_mod_cast hd, hs⟩

theorem simVal_neg_iff (d N : ℚ) (h : 0 < N) : Memory.simVal d N < 0 ↔ d < 0 := by
  have hs : 0 < Real.sqrt ((N : ℚ) : ℝ) := Real.sqrt_pos.mpr (by exact_mod_cast h)
  rw [Memory.simVal, if_neg (ne_of_gt h), div_neg_iff]
  constructor
  · rintro (⟨_, hb⟩ | ⟨ha, _⟩)
    · linarith
    · exact_mod_cast ha
  · intro hd
    exact Or.inr ⟨by exact_mod_cast hd, hs⟩

theorem simVal_eq_zero_iff (d N : ℚ) (h : 0 < N) : Memory.simVal d N = 0 ↔ d = 0 := by
  have hs : 0 < Real.sqrt ((N : ℚ) : ℝ) := Real.sqrt_pos.mpr (by exact_mod_cast h)
  rw [Memory.simVal, if_neg (ne_of_gt h), div_eq_zero_iff]
  constructor
  · rintro (ha | hb)
    · exact_mod_cast ha
    · exact absurd hb (ne_of_gt hs)
  · intro hd
    exact Or.inl (by exact_mod_cast hd)

theorem simVal_neg (d N : ℚ) : Memory.simVal (-d) N = - Memory.simVal d N := by
  by_cases h : N = 0 <;> simp [Memory.simVal, h, neg_div]

theorem simVal_le_iff_sq (d1 N1 d2 N2 : ℚ) (hN1 : 0 < N1) (hN2 : 0 < N2)
    (hd1 : 0 ≤ d1) (hd2 : 0 ≤ d2) :
    Memory.simVal d1 N1 ≤ Memory.simVal d2 N2 ↔ d1 ^ 2 * N2 ≤ d2 ^ 2 * N1 := by
  have hs1 : 0 < Real.sqrt ((N1 : ℚ) : ℝ) := Real.sqrt_pos.mpr (by exact_mod_cast hN1)
  have hs2 : 0 < Real.sqrt ((N2 : ℚ) : ℝ) := Real.sqrt_pos.mpr (by exact_mod_cast hN2)
  have hm1 : Real.sqrt ((N1 : ℚ) : ℝ) * Real.sqrt ((N1 : ℚ) : ℝ) = ((N1 : ℚ) : ℝ) :=
    Real.mul_self_sqrt (by exact_mod_cast le_of_lt hN1)
  have hm2 : Real.sqrt ((N2 : ℚ) : ℝ) * Real.sqrt ((N2 : ℚ) : ℝ) = ((N2 : ℚ) : ℝ) :=
    Real.mul_self_sqrt (by exact_mod_cast le_of_lt hN2)
  rw [Memory.simVal, if_neg (ne_of_gt hN1), Memory.simVal, if_neg (ne_of_gt hN2),
    div_le_div_iff₀ hs1 hs2]
  constructor
  · intro h
    have hA : (0 : ℝ) ≤ (d1 : ℝ) * Real.sqrt ((N2 : ℚ) : ℝ) :=
      mul_nonneg (by exact_mod_cast hd1) (le_of_lt hs2)
    have h2 := mul_self_le_mul_self hA h
    have h3 : ((d1 ^ 2 * N2 : ℚ) : ℝ) ≤ ((d2 ^ 2 * N1 : ℚ) : ℝ) := by
      push_cast
      nlinarith [hm1, hm2, h2]
    exact_mod_cast h3
  · intro h
    by_contra hcon
    push_neg at hcon
    have hB : (0 : ℝ) ≤ (d2 : ℝ) * Real.sqrt ((N1 : ℚ) : ℝ) :=
      mul_nonneg (by exact_mod_cast hd2) (le_of_lt hs1)
    have h2 := mul_self_lt_mul_self hB hcon
    have h3 : ((d2 ^ 2 * N1 : ℚ) : ℝ) < ((d1 ^ 2 * N2 : ℚ) : ℝ) := by
      push_cast
      nlinarith [hm1, hm2, h2]
    have h4 : (d2 ^ 2 * N1 : ℚ) < d1 ^ 2 * N2 := by exact_mod_cast h3
    linarith

theorem simSign_cases (d N : ℚ) (h : 0 ≤ N) :
    (Memory.simSign d N = -1 ∧ Memory.simVal d N < 0 ∧ 0 < N ∧ d < 0) ∨
    (Memory.simSign d N = 0 ∧ Memory.simVal d N = 0) ∨
    (Memory.simSign d N = 1 ∧ 0 < Memory.simVal d N ∧ 0 < N ∧ 0 < d) := by
  rcases eq_or_lt_of_le h with h0 | h0
  · right
    left
    constructor
    · simp [Memory.simSign, h0.symm]
    · simp [Memory.simVal, h0.symm]
  · by_cases hd : d < 0
    · left
      exact ⟨by simp [Memory.simSign, ne_of_gt h0, hd], (simVal_neg_iff d N h0).mpr hd, h0, hd⟩
    · by_cases hd0 : d = 0
      · right
        left
        exact ⟨by simp [Memory.simSign, ne_of_gt h0, hd, hd0],
          (simVal_eq_zero_iff d N h0).mpr hd0⟩
      · right
        right
        have hdp : 0 < d := lt_of_le_of_ne (not_lt.mp hd) (Ne.symm hd0)
        exact ⟨by simp [Memory.simSign, ne_of_gt h0, hd, hd0],
          (simVal_pos_iff d N h0).mpr hdp, h0, hdp⟩

theorem simLE_iff (d1 N1 d2 N2 : ℚ) (h1 : 0 ≤ N1) (h2 : 0 ≤ N2) :
    Memory.simLE d1 N1 d2 N2 = true ↔ Memory.simVal d1 N1 ≤ Memory.simVal d2 N2 := by
  rcases simSign_cases d1 N1 h1 with ⟨hs1, hv1, hN1, hd1⟩ | ⟨hs1, hv1⟩ | ⟨hs1, hv1, hN1, hd1⟩ <;>
    rcases simSign_cases d2 N2 h2 with ⟨hs2, hv2, hN2, hd2⟩ | ⟨hs2, hv2⟩ | ⟨hs2, hv2, hN2, hd2⟩
  · have hsq := simVal_le_iff_sq (-d2) N2 (-d1) N1 hN2 hN1 (by linarith) (by linarith)
    rw [simVal_neg, simVal_neg, neg_le_neg_iff, neg_sq, neg_sq] at hsq
    simp only [Memory.simLE, hs1, hs2]
    norm_num
    exact hsq.symm
  · simp only [Memory.simLE, hs1, hs2]
    norm_num
    linarith
  · simp only [Memory.simLE, hs1, hs2]
    norm_num
    linarith
  · simp only [Memory.simLE, hs1, hs2]
    norm_num
    linarith
  · simp only [Memory.simLE, hs1, hs2]
    norm_num
    linarith
  · simp only [Memory.simLE, hs1, hs2]
    norm_num
    linarith
  · simp only [Memory.simLE, hs1, hs2]
    norm_num
    linarith
  · simp only [Memory.simLE, hs1, hs2]
    norm_num
    linarith
  · have hsq := simVal_le_iff_sq d1 N1 d2 N2 hN1 hN2 (le_of_lt hd1) (le_of_lt hd2)
    simp only [Memory.simLE, hs1, hs2]
    norm_num
    exact hsq.symm

theorem entryKey_nonneg (q : Memory.Vec) (e : Memory.HistoryEntry) :
    0 ≤ (Memory.entryKey q e).2 := by
  unfold Memory.entryKey
  cases he : e.embedding with
  | none => simp
  | some v =>
    by_cases h : v.length = q.length
    · simp only [h, if_true]
      exact mul_nonneg (sumSq_nonneg q) (sumSq_nonneg v)
    · simp [h]

theorem entryKey_val (q : Memory.Vec) (e : Memory.HistoryEntry) :
    Memory.simVal (Memory.entryKey q e).1 (Memory.entryKey q e).2 = Memory.entryCos q e := by
  unfold Memory.entryKey Memory.entryCos
  cases he : e.embedding with
  | none => simp [Memory.simVal]
  | some v =>
    by_cases h : v.length = q.length
    · simp only [h, if_true]
      have hq : (0 : ℝ) ≤ ((Memory.sumSq q : ℚ) : ℝ) := by exact_mod_cast sumSq_nonneg q
      have hv : (0 : ℝ) ≤ ((Memory.sumSq v : ℚ) : ℝ) := by exact_mod_cast sumSq_nonneg v
      by_cases hz : Memory.sumSq q * Memory.sumSq v = 0
      · rw [Memory.simVal, if_pos hz, Memory.cosine_similarity, if_pos ?_]
        rcases mul_eq_zero.mp hz with h0 | h0
        · left
          rw [h0]
          simp
        · right
          rw [h0]
          simp
      · rw [Memory.simVal, if_neg hz, Memory.cosine_similarity, if_neg ?_]
        · rw [Rat.cast_mul, Real.sqrt_mul hq]
        · rintro (h0 | h0)
          · have : ((Memory.sumSq q : ℚ) : ℝ) = 0 := (Real.sqrt_eq_zero hq).mp h0
            have hq0 : Memory.sumSq q = 0 := by exact_mod_cast this
            exact hz (by rw [hq0]; ring)
          · have : ((Memory.sumSq v : ℚ) : ℝ) = 0 := (Real.sqrt_eq_zero hv).mp h0
            have hv0 : Memory.sumSq v = 0 := by exact_mod_cast this
            exact hz (by rw [hv0]; ring)
    · simp [h, Memory.simVal]

theorem entryLE_iff (q : Memory.Vec) (a b : Nat × Memory.HistoryEntry) :
    Memory.entryLE q a b = true ↔
      (Memory.entryCos q b.2 < Memory.entryCos q a.2 ∨
        (Memory.entryCos q a.2 = Memory.entryCos q b.2 ∧ a.1 ≤ b.1)) := by
  have hka := entryKey_nonneg q a.2
  have hkb := entryKey_nonneg q b.2
  have hab := simLE_iff (Memory.entryKey q a.2).1 (Memory.entryKey q a.2).2
    (Memory.entryKey q b.2).1 (Memory.entryKey q b.2).2 hka hkb
  have hba := simLE_iff (Memory.entryKey q b.2).1 (Memory.entryKey q b.2).2
    (Memory.entryKey q a.2).1 (Memory.entryKey q a.2).2 hkb hka
  rw [entryKey_val, entryKey_val] at hab hba
  unfold Memory.entryLE
  by_cases h : Memory.simLE (Memory.entryKey q a.2).1 (Memory.entryKey q a.2).2
      (Memory.entryKey q b.2).1 (Memory.entryKey q b.2).2 = true
  · rw [if_pos h, Bool.and_eq_true, decide_eq_true_iff]
    have hle := hab.mp h
    constructor
    · rintro ⟨hba2, hidx⟩
      right
      exact ⟨le_antisymm hle (hba.mp hba2), hidx⟩
    · rintro (hlt | ⟨heq, hidx⟩)
      · exact absurd hle (not_le.mpr hlt)
      · exact ⟨hba.mpr (le_of_eq heq.symm), hidx⟩
  · rw [if_neg h]
    have hlt : Memory.entryCos q b.2 < Memory.entryCos q a.2 := by
      have := (not_congr hab).mp h
      exact lt_of_not_le this
    simp [hlt]

theorem entryLE_total (q : Memory.Vec) (a b : Nat × Memory.HistoryEntry) :
    Memory.entryLE q a b || Memory.entryLE q b a := by
  rw [Bool.or_eq_true, entryLE_iff, entryLE_iff]
  rcases lt_trichotomy (Memory.entryCos q a.2) (Memory.entryCos q b.2) with h | h | h
  · right
    left
    exact h
  · rcases Nat.le_total a.1 b.1 with hi | hi
    · left
      right
      exact ⟨h, hi⟩
    · right
      right
      exact ⟨h.symm, hi⟩
  · left
    left
    exact h

theorem entryLE_trans (q : Memory.Vec) (a b c : Nat × Memory.HistoryEntry) :
    Memory.entryLE q a b → Memory.entryLE q b c → Memory.entryLE q a c := by
  intro hab hbc
  rw [entryLE_iff] at *
  rcases hab with h1 | ⟨h1, hi1⟩ <;> rcases hbc with h2 | ⟨h2, hi2⟩
  · left
    linarith
  · left
    linarith
  · left
    linarith
  · right
    exact ⟨by linarith, le_trans hi1 hi2⟩

theorem enum_fst_pairwise (l : List Memory.HistoryEntry) :
    l.enum.Pairwise (fun a b => a.1 < b.1) := by
  have h : (l.enum.map Prod.fst).Pairwise (· < ·) := by
    rw [List.enum_map_fst]
    exact List.pairwise_lt_range l.length
  exact (List.pairwise_map.mp h)

/-- C7: with a query embedding available, the retrieval ranks the indexed
history entries so that similarity strictly decreases along the ranking, with
ties broken by the original newest-first position, and returns the flattened
prompts and the summaries of the first `limit` ranked entries; with the query
embedding unavailable it returns the prompts and summaries of the `limit`
most recent entries and raises no error. The real-valued key of an entry is
`entryCos`, which is `cosine_similarity` of the query against the entry
embedding, with value 0 for a missing embedding or a dimension mismatch. -/
theorem C7_similarity_retrieval :
    (∀ (q : Memory.Vec) (history : List Memory.HistoryEntry),
      (Memory.rankedEntries q history).Perm history.enum ∧
      (Memory.rankedEntries q history).Pairwise (fun a b =>
        Memory.entryCos q b.2 < Memory.entryCos q a.2 ∨
          (Memory.entryCos q a.2 = Memory.entryCos q b.2 ∧ a.1 < b.1))) ∧
    (∀ (q : Memory.Vec) (history : List Memory.HistoryEntry) (limit : Nat),
      Memory.get_relevant_prompts history (some q) limit =
        (((Memory.rankedEntries q history).take limit).flatMap (fun p => p.2.prompts),
          ((Memory.rankedEntries q history).take limit).filterMap (fun p => p.2.summary))) ∧
    (∀ (history : List Memory.HistoryEntry) (limit : Nat),
      Memory.get_relevant_prompts history none limit =
        ((history.take limit).flatMap (fun e => e.prompts),
          (history.take limit).filterMap (fun e => e.summary))) := by
  refine ⟨?_, ?_, ?_⟩
  · intro q history
    constructor
    · exact List.mergeSort_perm history.enum (Memory.entryLE q)
    · have hs : (Memory.rankedEntries q history).Pairwise
          (fun a b => Memory.entryLE q a b) := by
        exact @List.sorted_mergeSort _ (Memory.entryLE q)
          (fun a b c => entryLE_trans q a b c)
          (fun a b => entryLE_total q a b) history.enum
      have hne : (Memory.rankedEntries q history).Pairwise (fun a b => a.1 ≠ b.1) := by
        have hperm : (Memory.rankedEntries q history).Perm history.enum :=
          List.mergeSort_perm history.enum (Memory.entryLE q)
        exact (hperm.pairwise_iff (fun h => Ne.symm h)).mpr
          ((enum_fst_pairwise history).imp (fun h => Nat.ne_of_lt h))
      refine (hs.and hne).imp ?_
      intro a b hab
      rcases (entryLE_iff q a b).mp hab.1 with h | ⟨heq, hidx⟩
      · exact Or.inl h
      · exact Or.inr ⟨heq, lt_of_le_of_ne hidx hab.2⟩
  · intro q history limit
    cases history with
    | nil => simp [Memory.get_relevant_prompts, Memory.rankedEntries, List.mergeSort]
    | cons e t => simp [Memory.get_relevant_prompts]
  · intro history limit
    cases history with
    | nil => simp [Memory.get_relevant_prompts]
    | cons e t => simp [Memory.get_relevant_prompts]

/-- C2 counterexample: the legacy server scheduler executes a workflow whose
`nextExecutionTime` is unset on the very next tick. -/
theorem C2_counterexample :
    ({ defaultState with isActive := true } : WorkflowState).nextExecutionTime = none ∧
    LegacyServer.dispatches 5 { defaultState with isActive := true } = true ∧
    ((LegacyServer.tick 5 [("w1", { defaultState with isActive := true })] ["w1"]).2.map
      Spawn.workflowId) = ["w1"] := by
  decide

end Brousla
